import Mathlib

/-!
Verification development for the `PyBuffer` module (`src/buffer.rs`).

The Rust module is shallowly embedded: the `Py_buffer` struct becomes a Lean
structure over `Nat`/`Int` fields, the format classifier and the element
compatibility check become computable Lean functions, and the calls into the
external runtime (`PyBuffer_IsContiguous`, `PyBuffer_GetPointer`,
`PyBuffer_ToContiguous`, `PyBuffer_FromContiguous`) are modelled as an
`Owner` oracle supplying the return value of each foreign call.  Fallible
Rust code returns `PyResult`, and Rust panics (assertion failures, integer
division by zero) are modelled by the `PanicOr` wrapper.
-/

/-- Mirror of `enum ElementType` in `buffer.rs`. -/
inductive ElementType where
  | SignedInteger (bytes : Nat)
  | UnsignedInteger (bytes : Nat)
  | Bool
  | Float (bytes : Nat)
  | Unknown
deriving DecidableEq

/-- Byte widths of the platform's native C types, the values of
`mem::size_of::<raw::c_char>()` and friends that `buffer.rs` consults.
They are parameters of the embedding because Rust resolves them per target. -/
structure NativeSizes where
  c_char : Nat
  c_schar : Nat
  c_uchar : Nat
  c_short : Nat
  c_ushort : Nat
  c_int : Nat
  c_uint : Nat
  c_long : Nat
  c_ulong : Nat
  c_longlong : Nat
  c_ulonglong : Nat
  ssize_t : Nat
  size_t : Nat
deriving DecidableEq

/-- Native sizes of the x86-64 Linux target the crate is built for in CI. -/
def linux64 : NativeSizes :=
  { c_char := 1, c_schar := 1, c_uchar := 1, c_short := 2, c_ushort := 2,
    c_int := 4, c_uint := 4, c_long := 8, c_ulong := 8,
    c_longlong := 8, c_ulonglong := 8, ssize_t := 8, size_t := 8 }

/-- Mirror of `fn native_element_type_from_type_char` in `buffer.rs`. -/
def native_element_type_from_type_char (ns : NativeSizes) (type_char : Char) : ElementType :=
  match type_char with
  | 'c' => .UnsignedInteger ns.c_char
  | 'b' => .SignedInteger ns.c_schar
  | 'B' => .UnsignedInteger ns.c_uchar
  | '?' => .Bool
  | 'h' => .SignedInteger ns.c_short
  | 'H' => .UnsignedInteger ns.c_ushort
  | 'i' => .SignedInteger ns.c_int
  | 'I' => .UnsignedInteger ns.c_uint
  | 'l' => .SignedInteger ns.c_long
  | 'L' => .UnsignedInteger ns.c_ulong
  | 'q' => .SignedInteger ns.c_longlong
  | 'Q' => .UnsignedInteger ns.c_ulonglong
  | 'n' => .SignedInteger ns.ssize_t
  | 'N' => .UnsignedInteger ns.size_t
  | 'e' => .Float 2
  | 'f' => .Float 4
  | 'd' => .Float 8
  | _ => .Unknown

/-- Mirror of `fn standard_element_type_from_type_char` in `buffer.rs`. -/
def standard_element_type_from_type_char (type_char : Char) : ElementType :=
  match type_char with
  | 'c' | 'B' => .UnsignedInteger 1
  | 'b' => .SignedInteger 1
  | '?' => .Bool
  | 'h' => .SignedInteger 2
  | 'H' => .UnsignedInteger 2
  | 'i' | 'l' => .SignedInteger 4
  | 'I' | 'L' => .UnsignedInteger 4
  | 'q' => .SignedInteger 8
  | 'Q' => .UnsignedInteger 8
  | 'e' => .Float 2
  | 'f' => .Float 4
  | 'd' => .Float 8
  | _ => .Unknown

/-- Mirror of `ElementType::from_format`.  A format string is the byte
content of the `CStr` (NUL terminator excluded), embedded as `List Char`. -/
def ElementType.from_format (ns : NativeSizes) (s : List Char) : ElementType :=
  match s with
  | [c] => native_element_type_from_type_char ns c
  | [m, c] =>
    match m with
    | '@' => native_element_type_from_type_char ns c
    | '=' | '<' | '>' | '!' => standard_element_type_from_type_char c
    | _ => ElementType.Unknown
  | _ => ElementType.Unknown

/-- Byte order of the compilation target; `buffer.rs` selects one of two
`is_matching_endian` bodies with `cfg(target_endian)`. -/
inductive Endianness where
  | little
  | big
deriving DecidableEq

/-- Mirror of the two `cfg(target_endian)` variants of `fn is_matching_endian`. -/
def is_matching_endian (e : Endianness) (c : Char) : Bool :=
  match e with
  | .little =>
    match c with
    | '@' | '=' | '<' => true
    | _ => false
  | .big =>
    match c with
    | '@' | '=' | '>' | '!' => true
    | _ => false

/-- Which `ElementType` constructor the `impl_element!` macro names for a
concrete element type (`UnsignedInteger`, `SignedInteger` or `Float`). -/
inductive ElementTag where
  | signed
  | unsigned
  | float
deriving DecidableEq

/-- Apply an `ElementTag` to a byte width, as `ElementType::$f \x7b bytes \x7d`
does in the macro expansion. -/
def ElementTag.toElementType : ElementTag → Nat → ElementType
  | .signed, n => .SignedInteger n
  | .unsigned, n => .UnsignedInteger n
  | .float, n => .Float n

/-- Compile-time data of one concrete Rust element type `T`: the constructor
named by `impl_element!($t, $f)`, `mem::size_of::<T>()` and
`mem::align_of::<T>()`. -/
structure ElementSpec where
  tag : ElementTag
  size : Nat
  align : Nat
deriving DecidableEq

/-- The tag the macro compares against: `ElementType::$f \x7b bytes: mem::size_of::<$t>() \x7d`. -/
def ElementSpec.expected (t : ElementSpec) : ElementType :=
  t.tag.toElementType t.size

/-- Mirror of the `is_compatible_format` body generated by `impl_element!`:
reject a multi-character format whose first byte is not a matching endian
marker, then compare the classified element type with the expected tag. -/
def ElementSpec.is_compatible_format (e : Endianness) (ns : NativeSizes)
    (t : ElementSpec) (s : List Char) : Bool :=
  if 1 < s.length && !(is_matching_endian e (s.headD ' ')) then
    false
  else
    ElementType.from_format ns s == t.expected

/-- The twelve `impl_element!` instances, at x86-64 sizes and alignments. -/
def u8Spec : ElementSpec := ⟨.unsigned, 1, 1⟩

def u16Spec : ElementSpec := ⟨.unsigned, 2, 2⟩

def u32Spec : ElementSpec := ⟨.unsigned, 4, 4⟩

def u64Spec : ElementSpec := ⟨.unsigned, 8, 8⟩

def usizeSpec : ElementSpec := ⟨.unsigned, 8, 8⟩

def i8Spec : ElementSpec := ⟨.signed, 1, 1⟩

def i16Spec : ElementSpec := ⟨.signed, 2, 2⟩

def i32Spec : ElementSpec := ⟨.signed, 4, 4⟩

def i64Spec : ElementSpec := ⟨.signed, 8, 8⟩

def isizeSpec : ElementSpec := ⟨.signed, 8, 8⟩

def f32Spec : ElementSpec := ⟨.float, 4, 4⟩

def f64Spec : ElementSpec := ⟨.float, 8, 8⟩

/-- Mirror of the `ffi::Py_buffer` fields that `buffer.rs` reads.  `buf` is
the data pointer as an address, `readonly` the raw `c_int` flag; `itemsize`
and `len` are the `Py_ssize_t` fields after the `as usize` casts the module
performs; `shape`, `strides` and `suboffsets` are the pointed-to arrays (of
length `ndim` when the descriptor is well formed); `format` is the byte
content of the format `CStr`, `none` when the pointer is NULL. -/
structure Py_buffer where
  buf : Nat
  readonly : Int
  itemsize : Nat
  len : Nat
  ndim : Nat
  shape : List Nat
  strides : List Int
  suboffsets : Option (List Int)
  format : Option (List Char)

/-- The three `BufferError` messages `buffer.rs` raises, one constructor per
distinct message string. -/
inductive BufferErrorMsg where
  | sliceLengthDoesNotMatchBufferLength
  | sliceTypeIncompatibleWithBufferFormat
  | cannotWriteToReadOnlyBuffer
deriving DecidableEq

/-- Errors surfaced through `PyResult`: either a `BufferError` the module
raises itself, or an arbitrary error fetched from the runtime after a
foreign call returned `-1` (`err::error_on_minusone`).  The runtime error is
kept opaque as a code. -/
inductive PyErr where
  | bufferError (msg : BufferErrorMsg)
  | fetched (code : Nat)
deriving DecidableEq

/-- Result type of fallible operations, mirror of `PyResult`. -/
inductive PyResult (α : Type) where
  | ok (val : α)
  | err (e : PyErr)
deriving DecidableEq

/-- Outcome of code that may hit a Rust panic (a failed `assert!`, an
out-of-range slice index, or integer division by zero). -/
inductive PanicOr (α : Type) where
  | panicked
  | ok (val : α)
deriving DecidableEq

/-- Oracle for the foreign calls `buffer.rs` makes into the runtime: each
field yields the return value of one FFI primitive, and `fetchCode`
identifies the runtime error that `PyErr::fetch` would retrieve after a
`-1` return.  `freshPtr` is the address the allocator hands to
`Vec::with_capacity` inside `to_vec_impl`. -/
structure Owner where
  isContiguousRet : Py_buffer → Char → Int
  getPointerRet : Py_buffer → List Nat → Nat
  toContiguousRet : Nat → Py_buffer → Nat → Char → Int
  fromContiguousRet : Py_buffer → Nat → Nat → Char → Int
  freshPtr : Nat
  fetchCode : Nat

/-- Mirror of `err::error_on_minusone`: `-1` means a runtime error is set. -/
def error_on_minusone (own : Owner) (result : Int) : PyResult Unit :=
  if result = -1 then .err (.fetched own.fetchCode) else .ok ()

/-- A borrowed slice `&[T]` produced by `slice::from_raw_parts`: its data
pointer and its element count. -/
structure RawSlice where
  ptr : Nat
  len : Nat
deriving DecidableEq

/-- A `Vec<T>` as `to_vec_impl` builds it: its capacity and its committed
length (element contents live in externally written memory). -/
structure RustVec where
  cap : Nat
  len : Nat
deriving DecidableEq

namespace Py_buffer

/-- Mirror of `PyBuffer::readonly`: the raw flag compared against zero. -/
def readonlyBool (b : Py_buffer) : Bool :=
  b.readonly != 0

/-- Mirror of `PyBuffer::item_count`: the unguarded `usize` division
`(len as usize) / (itemsize as usize)`; division by zero panics in Rust. -/
def item_count (b : Py_buffer) : PanicOr Nat :=
  if b.itemsize = 0 then .panicked else .ok (b.len / b.itemsize)

/-- Mirror of `PyBuffer::len_bytes`. -/
def len_bytes (b : Py_buffer) : Nat :=
  b.len

/-- Mirror of `PyBuffer::format`: a NULL format pointer defaults to `"B"`. -/
def formatVal (b : Py_buffer) : List Char :=
  b.format.getD ['B']

/-- Mirror of `PyBuffer::is_c_contiguous`: the owner-computed
`PyBuffer_IsContiguous(.., b'C')` result compared against zero. -/
def is_c_contiguous (b : Py_buffer) (own : Owner) : Bool :=
  own.isContiguousRet b 'C' != 0

/-- Mirror of `PyBuffer::is_fortran_contiguous`. -/
def is_fortran_contiguous (b : Py_buffer) (own : Owner) : Bool :=
  own.isContiguousRet b 'F' != 0

/-- Mirror of `PyBuffer::get_ptr`: slicing `&self.shape()[..indices.len()]`
panics when more indices than dimensions are given, the `assert!` loop
panics on an out-of-range index, and otherwise `PyBuffer_GetPointer`
supplies the address. -/
def get_ptr (b : Py_buffer) (own : Owner) (indices : List Nat) : PanicOr Nat :=
  if indices.length ≤ b.shape.length then
    let shape := b.shape.take indices.length
    if (indices.zip shape).all fun p => p.1 < p.2 then
      .ok (own.getPointerRet b indices)
    else
      .panicked
  else
    .panicked

/-- Mirror of `PyBuffer::as_slice` (read-only, C order).  The returned view
is `slice::from_raw_parts(buf, item_count)`, embedded as a `RawSlice`. -/
def as_slice (e : Endianness) (ns : NativeSizes) (t : ElementSpec)
    (b : Py_buffer) (own : Owner) : PanicOr (Option RawSlice) :=
  if t.size == b.itemsize
      && b.buf % t.align == 0
      && b.is_c_contiguous own
      && ElementSpec.is_compatible_format e ns t b.formatVal then
    match b.item_count with
    | .panicked => .panicked
    | .ok n => .ok (some ⟨b.buf, n⟩)
  else
    .ok none

/-- Mirror of `PyBuffer::as_mut_slice` (mutable, C order). -/
def as_mut_slice (e : Endianness) (ns : NativeSizes) (t : ElementSpec)
    (b : Py_buffer) (own : Owner) : PanicOr (Option RawSlice) :=
  if !b.readonlyBool
      && t.size == b.itemsize
      && b.buf % t.align == 0
      && b.is_c_contiguous own
      && ElementSpec.is_compatible_format e ns t b.formatVal then
    match b.item_count with
    | .panicked => .panicked
    | .ok n => .ok (some ⟨b.buf, n⟩)
  else
    .ok none

/-- Mirror of `PyBuffer::as_fortran_slice` (read-only, Fortran order). -/
def as_fortran_slice (e : Endianness) (ns : NativeSizes) (t : ElementSpec)
    (b : Py_buffer) (own : Owner) : PanicOr (Option RawSlice) :=
  if t.size == b.itemsize
      && b.buf % t.align == 0
      && b.is_fortran_contiguous own
      && ElementSpec.is_compatible_format e ns t b.formatVal then
    match b.item_count with
    | .panicked => .panicked
    | .ok n => .ok (some ⟨b.buf, n⟩)
  else
    .ok none

/-- Mirror of `PyBuffer::as_fortran_mut_slice` (mutable, Fortran order). -/
def as_fortran_mut_slice (e : Endianness) (ns : NativeSizes) (t : ElementSpec)
    (b : Py_buffer) (own : Owner) : PanicOr (Option RawSlice) :=
  if !b.readonlyBool
      && t.size == b.itemsize
      && b.buf % t.align == 0
      && b.is_fortran_contiguous own
      && ElementSpec.is_compatible_format e ns t b.formatVal then
    match b.item_count with
    | .panicked => .panicked
    | .ok n => .ok (some ⟨b.buf, n⟩)
  else
    .ok none

end Py_buffer

/-- Mirror of `fn incompatible_format_error` in `buffer.rs`. -/
def incompatible_format_error : PyResult Unit :=
  .err (.bufferError .sliceTypeIncompatibleWithBufferFormat)

/-- Mirror of `fn buffer_readonly_error` in `buffer.rs`. -/
def buffer_readonly_error : PyResult Unit :=
  .err (.bufferError .cannotWriteToReadOnlyBuffer)

namespace Py_buffer

/-- Mirror of `PyBuffer::copy_to_slice_impl`.  The target `&mut [T]` is a
`RawSlice` of `target.len` elements of `t.size` bytes each, so
`mem::size_of_val(target) = target.len * t.size`. -/
def copy_to_slice_impl (e : Endianness) (ns : NativeSizes) (t : ElementSpec)
    (b : Py_buffer) (own : Owner) (target : RawSlice) (fort : Char) : PyResult Unit :=
  if target.len * t.size != b.len_bytes then
    .err (.bufferError .sliceLengthDoesNotMatchBufferLength)
  else if !(ElementSpec.is_compatible_format e ns t b.formatVal) || t.size != b.itemsize then
    incompatible_format_error
  else
    error_on_minusone own (own.toContiguousRet target.ptr b b.len fort)

/-- Mirror of `PyBuffer::copy_from_slice_impl`. -/
def copy_from_slice_impl (e : Endianness) (ns : NativeSizes) (t : ElementSpec)
    (b : Py_buffer) (own : Owner) (source : RawSlice) (fort : Char) : PyResult Unit :=
  if b.readonlyBool then
    buffer_readonly_error
  else if source.len * t.size != b.len_bytes then
    .err (.bufferError .sliceLengthDoesNotMatchBufferLength)
  else if !(ElementSpec.is_compatible_format e ns t b.formatVal) || t.size != b.itemsize then
    incompatible_format_error
  else
    error_on_minusone own (own.fromContiguousRet b source.ptr b.len fort)

/-- Mirror of `PyBuffer::to_vec_impl`: check format compatibility, allocate
`Vec::with_capacity(item_count)`, let `PyBuffer_ToContiguous` fill the
uninitialized space, and `set_len(item_count)` only after it succeeded. -/
def to_vec_impl (e : Endianness) (ns : NativeSizes) (t : ElementSpec)
    (b : Py_buffer) (own : Owner) (fort : Char) : PanicOr (PyResult RustVec) :=
  if !(ElementSpec.is_compatible_format e ns t b.formatVal) || t.size != b.itemsize then
    .ok (.err (.bufferError .sliceTypeIncompatibleWithBufferFormat))
  else
    match b.item_count with
    | .panicked => .panicked
    | .ok n =>
      let vec : RustVec := { cap := n, len := 0 }
      match error_on_minusone own (own.toContiguousRet own.freshPtr b b.len fort) with
      | .err e0 => .ok (.err e0)
      | .ok _ => .ok (.ok { vec with len := n })

end Py_buffer

/-- State of one descriptor's lifetime: how often `ffi::PyBuffer_Release`
has been called on it, and whether the wrapper value was passed to
`mem::forget` (which suppresses its `Drop` impl). -/
structure DescriptorState where
  releaseCalls : Nat
  forgotten : Bool
deriving DecidableEq

/-- State right after `PyBuffer::get` returned a wrapper. -/
def initialDescriptor : DescriptorState :=
  { releaseCalls := 0, forgotten := false }

/-- Mirror of `PyBuffer::release`: call `ffi::PyBuffer_Release` once, then
`mem::forget(self)` so the `Drop` impl will never run on this value. -/
def releaseExplicit (s : DescriptorState) : DescriptorState :=
  { releaseCalls := s.releaseCalls + 1, forgotten := true }

/-- Mirror of `impl Drop for PyBuffer`: acquire the GIL and call
`ffi::PyBuffer_Release` once. -/
def dropImpl (s : DescriptorState) : DescriptorState :=
  { s with releaseCalls := s.releaseCalls + 1 }

/-- Rust's drop glue at end of scope: it runs `Drop::drop` unless the value
was consumed by `mem::forget`. -/
def endOfScope (s : DescriptorState) : DescriptorState :=
  if s.forgotten then s else dropImpl s

/-- A whole `PyBuffer` lifetime: acquisition, optionally an explicit
`release` call, then scope exit. -/
def bufferLifetime (explicitRelease : Bool) : DescriptorState :=
  endOfScope (if explicitRelease then releaseExplicit initialDescriptor else initialDescriptor)

/-- Fixture: a 5-byte, 1-dimensional, writable descriptor with format `B`,
as a writable byte buffer would present it. -/
def bytesBuf : Py_buffer :=
  { buf := 64, readonly := 0, itemsize := 1, len := 5, ndim := 1,
    shape := [5], strides := [1], suboffsets := none, format := some ['B'] }

/-- Fixture: the same descriptor marked read-only. -/
def bytesBufRO : Py_buffer :=
  { bytesBuf with readonly := 1 }

/-- Fixture: a descriptor whose `itemsize` field is zero. -/
def zeroItemBuf : Py_buffer :=
  { bytesBuf with itemsize := 0 }

/-- Fixture: an owner whose contiguity oracle answers yes and whose copy
primitives succeed. -/
def okOwner : Owner :=
  { isContiguousRet := fun _ _ => 1,
    getPointerRet := fun b indices => b.buf + indices.headD 0,
    toContiguousRet := fun _ _ _ _ => 0,
    fromContiguousRet := fun _ _ _ _ => 0,
    freshPtr := 1024,
    fetchCode := 7 }

/-- Fixture: an owner whose `PyBuffer_ToContiguous` reports failure. -/
def failOwner : Owner :=
  { okOwner with toContiguousRet := fun _ _ _ _ => -1 }

/-! ## Shared helper lemmas -/

/-- Unfolding lemma: `item_count` on a descriptor with nonzero `itemsize`. -/
theorem item_count_of_ne_zero (b : Py_buffer) (h : b.itemsize ≠ 0) :
    b.item_count = .ok (b.len / b.itemsize) := by
  simp [Py_buffer.item_count, h]

/-- The success condition of `as_slice`, as a proposition. -/
def cViewCond (e : Endianness) (ns : NativeSizes) (t : ElementSpec)
    (b : Py_buffer) (own : Owner) : Prop :=
  t.size = b.itemsize ∧ b.buf % t.align = 0 ∧ b.is_c_contiguous own = true
    ∧ ElementSpec.is_compatible_format e ns t b.formatVal = true

/-- The success condition of `as_fortran_slice`, as a proposition. -/
def fViewCond (e : Endianness) (ns : NativeSizes) (t : ElementSpec)
    (b : Py_buffer) (own : Owner) : Prop :=
  t.size = b.itemsize ∧ b.buf % t.align = 0 ∧ b.is_fortran_contiguous own = true
    ∧ ElementSpec.is_compatible_format e ns t b.formatVal = true

instance (e : Endianness) (ns : NativeSizes) (t : ElementSpec) (b : Py_buffer) (own : Owner) :
    Decidable (cViewCond e ns t b own) := by
  unfold cViewCond; infer_instance

instance (e : Endianness) (ns : NativeSizes) (t : ElementSpec) (b : Py_buffer) (own : Owner) :
    Decidable (fViewCond e ns t b own) := by
  unfold fViewCond; infer_instance

/-- Closed form of `as_slice` when a zero `itemsize` cannot be reached. -/
theorem as_slice_eq (e : Endianness) (ns : NativeSizes) (t : ElementSpec)
    (b : Py_buffer) (own : Owner) (hne : t.size = b.itemsize → b.itemsize ≠ 0) :
    Py_buffer.as_slice e ns t b own =
      if cViewCond e ns t b own then .ok (some ⟨b.buf, b.len / b.itemsize⟩)
      else .ok none := by
  by_cases hC : cViewCond e ns t b own
  · have h' := hC
    unfold cViewCond at h'
    obtain ⟨h1, h2, h3, h4⟩ := h'
    unfold Py_buffer.as_slice
    rw [if_pos hC, if_pos (by simp [h1, h2, h3, h4]), item_count_of_ne_zero b (hne h1)]
  · unfold Py_buffer.as_slice
    rw [if_neg hC, if_neg]
    intro hbt
    simp only [Bool.and_eq_true, beq_iff_eq] at hbt
    exact hC ⟨hbt.1.1.1, hbt.1.1.2, hbt.1.2, hbt.2⟩

/-- Closed form of `as_mut_slice` when a zero `itemsize` cannot be reached. -/
theorem as_mut_slice_eq (e : Endianness) (ns : NativeSizes) (t : ElementSpec)
    (b : Py_buffer) (own : Owner) (hne : t.size = b.itemsize → b.itemsize ≠ 0) :
    Py_buffer.as_mut_slice e ns t b own =
      if b.readonlyBool = false ∧ cViewCond e ns t b own then
        .ok (some ⟨b.buf, b.len / b.itemsize⟩)
      else .ok none := by
  by_cases hC : b.readonlyBool = false ∧ cViewCond e ns t b own
  · have h' := hC.2
    unfold cViewCond at h'
    obtain ⟨h1, h2, h3, h4⟩ := h'
    unfold Py_buffer.as_mut_slice
    rw [if_pos hC, if_pos (by simp [hC.1, h1, h2, h3, h4]), item_count_of_ne_zero b (hne h1)]
  · unfold Py_buffer.as_mut_slice
    rw [if_neg hC, if_neg]
    intro hbt
    simp only [Bool.and_eq_true, Bool.not_eq_true', beq_iff_eq] at hbt
    exact hC ⟨hbt.1.1.1.1, hbt.1.1.1.2, hbt.1.1.2, hbt.1.2, hbt.2⟩

/-- Closed form of `as_fortran_slice` when a zero `itemsize` cannot be reached. -/
theorem as_fortran_slice_eq (e : Endianness) (ns : NativeSizes) (t : ElementSpec)
    (b : Py_buffer) (own : Owner) (hne : t.size = b.itemsize → b.itemsize ≠ 0) :
    Py_buffer.as_fortran_slice e ns t b own =
      if fViewCond e ns t b own then .ok (some ⟨b.buf, b.len / b.itemsize⟩)
      else .ok none := by
  by_cases hC : fViewCond e ns t b own
  · have h' := hC
    unfold fViewCond at h'
    obtain ⟨h1, h2, h3, h4⟩ := h'
    unfold Py_buffer.as_fortran_slice
    rw [if_pos hC, if_pos (by simp [h1, h2, h3, h4]), item_count_of_ne_zero b (hne h1)]
  · unfold Py_buffer.as_fortran_slice
    rw [if_neg hC, if_neg]
    intro hbt
    simp only [Bool.and_eq_true, beq_iff_eq] at hbt
    exact hC ⟨hbt.1.1.1, hbt.1.1.2, hbt.1.2, hbt.2⟩

/-- Closed form of `as_fortran_mut_slice` when a zero `itemsize` cannot be reached. -/
theorem as_fortran_mut_slice_eq (e : Endianness) (ns : NativeSizes) (t : ElementSpec)
    (b : Py_buffer) (own : Owner) (hne : t.size = b.itemsize → b.itemsize ≠ 0) :
    Py_buffer.as_fortran_mut_slice e ns t b own =
      if b.readonlyBool = false ∧ fViewCond e ns t b own then
        .ok (some ⟨b.buf, b.len / b.itemsize⟩)
      else .ok none := by
  by_cases hC : b.readonlyBool = false ∧ fViewCond e ns t b own
  · have h' := hC.2
    unfold fViewCond at h'
    obtain ⟨h1, h2, h3, h4⟩ := h'
    unfold Py_buffer.as_fortran_mut_slice
    rw [if_pos hC, if_pos (by simp [hC.1, h1, h2, h3, h4]), item_count_of_ne_zero b (hne h1)]
  · unfold Py_buffer.as_fortran_mut_slice
    rw [if_neg hC, if_neg]
    intro hbt
    simp only [Bool.and_eq_true, Bool.not_eq_true', beq_iff_eq] at hbt
    exact hC ⟨hbt.1.1.1.1, hbt.1.1.1.2, hbt.1.1.2, hbt.1.2, hbt.2⟩

/-! ## Claim theorems -/

/-- C1: for every descriptor and supported element type, `as_slice` returns
`Some` iff the item size matches, the data pointer is aligned, the
descriptor is C-contiguous and the format is compatible; `as_mut_slice`
additionally requires the descriptor not to be read-only; on success the
returned slice has `item_count` elements and addresses the descriptor's
memory directly; on failure the result is `None`, not an error. -/
theorem c1_view_construction (e : Endianness) (ns : NativeSizes) (t : ElementSpec)
    (b : Py_buffer) (own : Owner) (ht : 0 < t.size) :
    (Py_buffer.as_slice e ns t b own = .ok (some ⟨b.buf, b.len / b.itemsize⟩)
      ↔ cViewCond e ns t b own)
  ∧ (Py_buffer.as_slice e ns t b own = .ok none ↔ ¬cViewCond e ns t b own)
  ∧ (Py_buffer.as_mut_slice e ns t b own = .ok (some ⟨b.buf, b.len / b.itemsize⟩)
      ↔ (b.readonlyBool = false ∧ cViewCond e ns t b own))
  ∧ (Py_buffer.as_mut_slice e ns t b own = .ok none
      ↔ ¬(b.readonlyBool = false ∧ cViewCond e ns t b own))
  ∧ (∀ v : RawSlice, Py_buffer.as_slice e ns t b own = .ok (some v) →
      v.ptr = b.buf ∧ b.item_count = .ok v.len) := by
  have hne : t.size = b.itemsize → b.itemsize ≠ 0 := fun h => h ▸ Nat.pos_iff_ne_zero.mp ht
  have hs := as_slice_eq e ns t b own hne
  have hm := as_mut_slice_eq e ns t b own hne
  refine ⟨?_, ?_, ?_, ?_, ?_⟩
  · rw [hs]; split_ifs with h <;> simp [h]
  · rw [hs]; split_ifs with h <;> simp [h]
  · rw [hm]; split_ifs with h <;> simp [h]
  · rw [hm]; split_ifs with h <;> simp [h]
  · intro v hv
    rw [hs] at hv
    split_ifs at hv with h
    · have hv' : (⟨b.buf, b.len / b.itemsize⟩ : RawSlice) = v := by
        simpa using hv
      subst hv'
      exact ⟨rfl, item_count_of_ne_zero b (hne h.1)⟩
    · simp at hv

/-- Witness for C1 at a concrete writable byte buffer and element type `u8`. -/
theorem c1_view_construction_witness :
    Py_buffer.as_slice .little linux64 u8Spec bytesBuf okOwner = .ok (some ⟨64, 5⟩) :=
  (c1_view_construction .little linux64 u8Spec bytesBuf okOwner (by decide)).1.mpr (by decide)

/-- C2: `is_compatible_format` holds iff a format longer than one byte opens
with an endianness marker matching the platform byte order, and the
classified element type equals the expected tag of the candidate type at its
exact byte width; the marker sets are exactly `@ = <` on little-endian and
`@ = > !` on big-endian platforms. -/
theorem c2_is_compatible_format_rule (e : Endianness) (ns : NativeSizes)
    (t : ElementSpec) (s : List Char) :
    (ElementSpec.is_compatible_format e ns t s =
      ((decide (s.length ≤ 1) || is_matching_endian e (s.headD ' '))
        && (ElementType.from_format ns s == t.expected)))
  ∧ (∀ c : Char, is_matching_endian .little c = (c == '@' || c == '=' || c == '<'))
  ∧ (∀ c : Char, is_matching_endian .big c = (c == '@' || c == '=' || c == '>' || c == '!')) := by
  refine ⟨?_, ?_, ?_⟩
  · unfold ElementSpec.is_compatible_format
    by_cases h : 1 < s.length
    · by_cases hm : is_matching_endian e (s.headD ' ')
      · simp [h, hm, Nat.not_le.mpr h]
      · simp [h, hm, Nat.not_le.mpr h]
    · simp [h, Nat.le_of_not_lt (by simpa using h)]
  · intro c
    unfold is_matching_endian
    split <;> (try split) <;> simp_all
  · intro c
    unfold is_matching_endian
    split <;> (try split) <;> simp_all

/-- C3: `from_format` routes a length-1 format through the native-width
table, `@`-modified length-2 formats through the native-width table, and
`=`, `<`, `>`, `!` modified formats through the standard fixed-width table
(1-byte char/bool, 2-byte short, 4-byte int/long, 8-byte long long, floats
at 2/4/8 bytes); every other length, modifier or type character yields
`Unknown`. -/
theorem c3_format_classifier (ns : NativeSizes) :
    (∀ c : Char, ElementType.from_format ns [c] = native_element_type_from_type_char ns c)
  ∧ (∀ c : Char, ElementType.from_format ns ['@', c] = native_element_type_from_type_char ns c)
  ∧ (∀ m c : Char, (m = '=' ∨ m = '<' ∨ m = '>' ∨ m = '!') →
      ElementType.from_format ns [m, c] = standard_element_type_from_type_char c)
  ∧ (∀ m c : Char, m ≠ '@' → m ≠ '=' → m ≠ '<' → m ≠ '>' → m ≠ '!' →
      ElementType.from_format ns [m, c] = ElementType.Unknown)
  ∧ (∀ s : List Char, s.length ≠ 1 → s.length ≠ 2 →
      ElementType.from_format ns s = ElementType.Unknown)
  ∧ (standard_element_type_from_type_char 'c' = ElementType.UnsignedInteger 1
      ∧ standard_element_type_from_type_char 'B' = ElementType.UnsignedInteger 1
      ∧ standard_element_type_from_type_char 'b' = ElementType.SignedInteger 1
      ∧ standard_element_type_from_type_char '?' = ElementType.Bool
      ∧ standard_element_type_from_type_char 'h' = ElementType.SignedInteger 2
      ∧ standard_element_type_from_type_char 'H' = ElementType.UnsignedInteger 2
      ∧ standard_element_type_from_type_char 'i' = ElementType.SignedInteger 4
      ∧ standard_element_type_from_type_char 'l' = ElementType.SignedInteger 4
      ∧ standard_element_type_from_type_char 'I' = ElementType.UnsignedInteger 4
      ∧ standard_element_type_from_type_char 'L' = ElementType.UnsignedInteger 4
      ∧ standard_element_type_from_type_char 'q' = ElementType.SignedInteger 8
      ∧ standard_element_type_from_type_char 'Q' = ElementType.UnsignedInteger 8
      ∧ standard_element_type_from_type_char 'e' = ElementType.Float 2
      ∧ standard_element_type_from_type_char 'f' = ElementType.Float 4
      ∧ standard_element_type_from_type_char 'd' = ElementType.Float 8)
  ∧ (∀ c : Char,
      c ∉ (['c', 'b', 'B', '?', 'h', 'H', 'i', 'I', 'l', 'L', 'q', 'Q', 'e', 'f', 'd'] : List Char) →
      standard_element_type_from_type_char c = ElementType.Unknown)
  ∧ (∀ c : Char,
      c ∉ (['c', 'b', 'B', '?', 'h', 'H', 'i', 'I', 'l', 'L', 'q', 'Q', 'n', 'N', 'e', 'f', 'd'] : List Char) →
      native_element_type_from_type_char ns c = ElementType.Unknown) := by
  refine ⟨fun c => rfl, fun c => rfl, ?_, ?_, ?_, ?_, ?_, ?_⟩
  · rintro m c (rfl | rfl | rfl | rfl) <;> rfl
  · intro m c h1 h2 h3 h4 h5
    simp only [ElementType.from_format]
  · intro s h1 h2
    rcases s with _ | ⟨a, _ | ⟨b, _ | ⟨c, tl⟩⟩⟩
    · rfl
    · exact absurd rfl h1
    · exact absurd rfl h2
    · rfl
  · exact ⟨rfl, rfl, rfl, rfl, rfl, rfl, rfl, rfl, rfl, rfl, rfl, rfl, rfl, rfl, rfl⟩
  · intro c hc
    unfold standard_element_type_from_type_char
    split <;> simp_all
  · intro c hc
    unfold native_element_type_from_type_char
    split <;> simp_all

/-- C5: across a `PyBuffer`'s lifetime the descriptor is released exactly
once, whether release is explicit or left to the automatic teardown, and an
explicit `release` suppresses the teardown release. -/
theorem c5_release_exactly_once :
    (∀ explicitRelease : Bool, (bufferLifetime explicitRelease).releaseCalls = 1)
  ∧ (∀ s : DescriptorState, endOfScope (releaseExplicit s) = releaseExplicit s) := by
  constructor
  · intro x
    cases x <;> rfl
  · intro s
    rfl

/-- C9: whenever a mutable view constructor returns `Some`, the read-only
constructor of the same order on the same descriptor returns the same view:
the mutable preconditions strictly include the read-only ones. -/
theorem c9_mut_view_implies_view (e : Endianness) (ns : NativeSizes) (t : ElementSpec)
    (b : Py_buffer) (own : Owner) :
    (∀ v : RawSlice, Py_buffer.as_mut_slice e ns t b own = .ok (some v) →
      Py_buffer.as_slice e ns t b own = .ok (some v))
  ∧ (∀ v : RawSlice, Py_buffer.as_fortran_mut_slice e ns t b own = .ok (some v) →
      Py_buffer.as_fortran_slice e ns t b own = .ok (some v)) := by
  constructor
  · intro v hv
    unfold Py_buffer.as_mut_slice at hv
    unfold Py_buffer.as_slice
    split at hv
    case isTrue h =>
      simp only [Bool.and_eq_true, Bool.not_eq_true', beq_iff_eq] at h
      obtain ⟨⟨⟨⟨hr, h1⟩, h2⟩, h3⟩, h4⟩ := h
      rw [if_pos (by simp [h1, h2, h3, h4])]
      exact hv
    case isFalse h => simp at hv
  · intro v hv
    unfold Py_buffer.as_fortran_mut_slice at hv
    unfold Py_buffer.as_fortran_slice
    split at hv
    case isTrue h =>
      simp only [Bool.and_eq_true, Bool.not_eq_true', beq_iff_eq] at h
      obtain ⟨⟨⟨⟨hr, h1⟩, h2⟩, h3⟩, h4⟩ := h
      rw [if_pos (by simp [h1, h2, h3, h4])]
      exact hv
    case isFalse h => simp at hv

/-- C4: the copy protocol fails with exactly the documented recoverable
errors — a length-mismatch error when the slice byte length differs from the
buffer byte length, a format-incompatibility error when the element type is
incompatible or its size differs from `itemsize`, and (for the write path,
checked first) a read-only error on a read-only descriptor — and otherwise
delegates to the owner's contiguous-copy primitive in the requested order. -/
theorem c4_copy_protocol_errors (e : Endianness) (ns : NativeSizes) (t : ElementSpec)
    (b : Py_buffer) (own : Owner) (target source : RawSlice) (fort : Char) :
    (target.len * t.size ≠ b.len_bytes →
      Py_buffer.copy_to_slice_impl e ns t b own target fort
        = .err (.bufferError .sliceLengthDoesNotMatchBufferLength))
  ∧ (target.len * t.size = b.len_bytes →
      ¬(ElementSpec.is_compatible_format e ns t b.formatVal = true ∧ t.size = b.itemsize) →
      Py_buffer.copy_to_slice_impl e ns t b own target fort
        = .err (.bufferError .sliceTypeIncompatibleWithBufferFormat))
  ∧ (target.len * t.size = b.len_bytes →
      ElementSpec.is_compatible_format e ns t b.formatVal = true → t.size = b.itemsize →
      Py_buffer.copy_to_slice_impl e ns t b own target fort
        = error_on_minusone own (own.toContiguousRet target.ptr b b.len fort))
  ∧ (b.readonlyBool = true →
      Py_buffer.copy_from_slice_impl e ns t b own source fort
        = .err (.bufferError .cannotWriteToReadOnlyBuffer))
  ∧ (b.readonlyBool = false → source.len * t.size ≠ b.len_bytes →
      Py_buffer.copy_from_slice_impl e ns t b own source fort
        = .err (.bufferError .sliceLengthDoesNotMatchBufferLength))
  ∧ (b.readonlyBool = false → source.len * t.size = b.len_bytes →
      ¬(ElementSpec.is_compatible_format e ns t b.formatVal = true ∧ t.size = b.itemsize) →
      Py_buffer.copy_from_slice_impl e ns t b own source fort
        = .err (.bufferError .sliceTypeIncompatibleWithBufferFormat))
  ∧ (b.readonlyBool = false → source.len * t.size = b.len_bytes →
      ElementSpec.is_compatible_format e ns t b.formatVal = true → t.size = b.itemsize →
      Py_buffer.copy_from_slice_impl e ns t b own source fort
        = error_on_minusone own (own.fromContiguousRet b source.ptr b.len fort)) := by
  refine ⟨?_, ?_, ?_, ?_, ?_, ?_, ?_⟩
  · intro hlen
    unfold Py_buffer.copy_to_slice_impl
    rw [if_pos (by simp [bne_iff_ne, hlen])]
  · intro hlen hfmt
    have hcond : (!(ElementSpec.is_compatible_format e ns t b.formatVal)
        || t.size != b.itemsize) = true := by
      by_cases hsz : t.size = b.itemsize
      · have hcf : ElementSpec.is_compatible_format e ns t b.formatVal = false :=
          Bool.eq_false_iff.mpr fun hct => hfmt ⟨hct, hsz⟩
        simp [hcf]
      · simp [bne_iff_ne, hsz]
    unfold Py_buffer.copy_to_slice_impl
    rw [if_neg (by simp [bne_iff_ne, hlen]), if_pos hcond, incompatible_format_error]
  · intro hlen hc hsz
    unfold Py_buffer.copy_to_slice_impl
    rw [if_neg (by simp [bne_iff_ne, hlen]), if_neg (by simp [hc, hsz])]
  · intro hr
    unfold Py_buffer.copy_from_slice_impl
    rw [if_pos hr, buffer_readonly_error]
  · intro hr hlen
    unfold Py_buffer.copy_from_slice_impl
    rw [if_neg (by simp [hr]), if_pos (by simp [bne_iff_ne, hlen])]
  · intro hr hlen hfmt
    have hcond : (!(ElementSpec.is_compatible_format e ns t b.formatVal)
        || t.size != b.itemsize) = true := by
      by_cases hsz : t.size = b.itemsize
      · have hcf : ElementSpec.is_compatible_format e ns t b.formatVal = false :=
          Bool.eq_false_iff.mpr fun hct => hfmt ⟨hct, hsz⟩
        simp [hcf]
      · simp [bne_iff_ne, hsz]
    unfold Py_buffer.copy_from_slice_impl
    rw [if_neg (by simp [hr]), if_neg (by simp [bne_iff_ne, hlen]), if_pos hcond,
      incompatible_format_error]
  · intro hr hlen hc hsz
    unfold Py_buffer.copy_from_slice_impl
    rw [if_neg (by simp [hr]), if_neg (by simp [bne_iff_ne, hlen]),
      if_neg (by simp [hc, hsz])]

/-- Closed form of `to_vec_impl` for an element type of nonzero size. -/
theorem to_vec_impl_eq (e : Endianness) (ns : NativeSizes) (t : ElementSpec)
    (b : Py_buffer) (own : Owner) (fort : Char) (ht : 0 < t.size) :
    Py_buffer.to_vec_impl e ns t b own fort =
      if ElementSpec.is_compatible_format e ns t b.formatVal = true ∧ t.size = b.itemsize then
        (if own.toContiguousRet own.freshPtr b b.len fort = -1 then
          .ok (.err (.fetched own.fetchCode))
        else .ok (.ok ⟨b.len / b.itemsize, b.len / b.itemsize⟩))
      else .ok (.err (.bufferError .sliceTypeIncompatibleWithBufferFormat)) := by
  unfold Py_buffer.to_vec_impl
  by_cases hfmt : ElementSpec.is_compatible_format e ns t b.formatVal = true ∧ t.size = b.itemsize
  · obtain ⟨hc, hsz⟩ := hfmt
    rw [if_neg (show ¬((!(ElementSpec.is_compatible_format e ns t b.formatVal)
        || t.size != b.itemsize) = true) by simp [hc, hsz]),
      if_pos ⟨hc, hsz⟩,
      item_count_of_ne_zero b (hsz ▸ Nat.pos_iff_ne_zero.mp ht)]
    unfold error_on_minusone
    by_cases hr : own.toContiguousRet own.freshPtr b b.len fort = -1
    · simp [hr]
    · simp [hr]
  · have hcond : (!(ElementSpec.is_compatible_format e ns t b.formatVal)
        || t.size != b.itemsize) = true := by
      by_cases hsz : t.size = b.itemsize
      · have hcf : ElementSpec.is_compatible_format e ns t b.formatVal = false :=
          Bool.eq_false_iff.mpr fun hct => hfmt ⟨hct, hsz⟩
        simp [hcf]
      · simp [bne_iff_ne, hsz]
    rw [if_pos hcond, if_neg hfmt]

/-- C6: `to_vec_impl` fails with the format-incompatibility error exactly
when the element type is incompatible or its size differs from `itemsize`;
otherwise it allocates capacity `item_count`, lets the owner's copy
primitive run, and returns a vector of exactly `item_count` elements on
success or the fetched copy error on failure. -/
theorem c6_to_vec (e : Endianness) (ns : NativeSizes) (t : ElementSpec)
    (b : Py_buffer) (own : Owner) (fort : Char) (ht : 0 < t.size) :
    (Py_buffer.to_vec_impl e ns t b own fort
        = .ok (.err (.bufferError .sliceTypeIncompatibleWithBufferFormat))
      ↔ ¬(ElementSpec.is_compatible_format e ns t b.formatVal = true ∧ t.size = b.itemsize))
  ∧ (ElementSpec.is_compatible_format e ns t b.formatVal = true → t.size = b.itemsize →
      (own.toContiguousRet own.freshPtr b b.len fort ≠ -1 →
        Py_buffer.to_vec_impl e ns t b own fort
          = .ok (.ok ⟨b.len / b.itemsize, b.len / b.itemsize⟩))
      ∧ (own.toContiguousRet own.freshPtr b b.len fort = -1 →
        Py_buffer.to_vec_impl e ns t b own fort = .ok (.err (.fetched own.fetchCode)))) := by
  have heq := to_vec_impl_eq e ns t b own fort ht
  constructor
  · rw [heq]
    split_ifs with h1 h2
    · simp [h1]
    · simp [h1]
    · simp [h1]
  · intro hc hsz
    constructor
    · intro hr
      rw [heq, if_pos ⟨hc, hsz⟩, if_neg hr]
    · intro hr
      rw [heq, if_pos ⟨hc, hsz⟩, if_pos hr]

/-- Witness for C6: a successful `to_vec` over the concrete byte buffer. -/
theorem c6_to_vec_witness :
    Py_buffer.to_vec_impl .little linux64 u8Spec bytesBuf okOwner 'C' = .ok (.ok ⟨5, 5⟩) :=
  ((c6_to_vec .little linux64 u8Spec bytesBuf okOwner 'C' (by decide)).2
    (by decide) (by decide)).1 (by decide)

/-- C7: `get_ptr` requires every index of the given prefix to be below the
corresponding extent of `shape`; a violation is a fatal assertion failure,
and under the precondition the result is the owner's `PyBuffer_GetPointer`
address for that index path. -/
theorem c7_get_ptr_contract (b : Py_buffer) (own : Owner) (indices : List Nat)
    (hwf : b.shape.length = b.ndim) (hlen : indices.length ≤ b.ndim) :
    ((∀ p ∈ indices.zip (b.shape.take indices.length), p.1 < p.2) →
      Py_buffer.get_ptr b own indices = .ok (own.getPointerRet b indices))
  ∧ ((∃ p ∈ indices.zip (b.shape.take indices.length), ¬p.1 < p.2) →
      Py_buffer.get_ptr b own indices = .panicked) := by
  have hL : indices.length ≤ b.shape.length := hwf ▸ hlen
  constructor
  · intro h
    unfold Py_buffer.get_ptr
    rw [if_pos hL, if_pos]
    rw [List.all_eq_true]
    intro p hp
    exact decide_eq_true (h p hp)
  · rintro ⟨p, hp, hnp⟩
    unfold Py_buffer.get_ptr
    rw [if_pos hL, if_neg]
    intro hall
    rw [List.all_eq_true] at hall
    exact hnp (of_decide_eq_true (hall p hp))

/-- Witness for C7: an in-range index into the concrete byte buffer. -/
theorem c7_get_ptr_contract_witness :
    Py_buffer.get_ptr bytesBuf okOwner [2] = .ok (okOwner.getPointerRet bytesBuf [2]) :=
  (c7_get_ptr_contract bytesBuf okOwner [2] rfl (by decide)).1 (by decide)

/-- C8 counterexample: a read-only descriptor with both a mismatched slice
length and an incompatible format makes `copy_from_slice` report the
read-only error, not the length-mismatch error, because the read-only check
runs first. -/
theorem c8_counterexample :
    (⟨0, 1⟩ : RawSlice).len * f64Spec.size ≠ bytesBufRO.len_bytes
  ∧ ElementSpec.is_compatible_format .little linux64 f64Spec bytesBufRO.formatVal = false
  ∧ Py_buffer.copy_from_slice_impl .little linux64 f64Spec bytesBufRO okOwner ⟨0, 1⟩ 'C'
      = .err (.bufferError .cannotWriteToReadOnlyBuffer)
  ∧ Py_buffer.copy_from_slice_impl .little linux64 f64Spec bytesBufRO okOwner ⟨0, 1⟩ 'C'
      ≠ .err (.bufferError .sliceLengthDoesNotMatchBufferLength) :=
  ⟨by decide, by decide, by decide, by decide⟩

/-- C8 (amended): in `copy_to_slice` the length check precedes the format
check; in `copy_from_slice` the read-only check precedes both, and for a
non-read-only descriptor the length check precedes the format check: when
both the length and the format are wrong, the reported error is the length
mismatch. -/
theorem c8_length_check_precedes_format_check (e : Endianness) (ns : NativeSizes)
    (t : ElementSpec) (b : Py_buffer) (own : Owner) (target source : RawSlice) (fort : Char) :
    (target.len * t.size ≠ b.len_bytes →
      ¬(ElementSpec.is_compatible_format e ns t b.formatVal = true ∧ t.size = b.itemsize) →
      Py_buffer.copy_to_slice_impl e ns t b own target fort
        = .err (.bufferError .sliceLengthDoesNotMatchBufferLength))
  ∧ (b.readonlyBool = false → source.len * t.size ≠ b.len_bytes →
      ¬(ElementSpec.is_compatible_format e ns t b.formatVal = true ∧ t.size = b.itemsize) →
      Py_buffer.copy_from_slice_impl e ns t b own source fort
        = .err (.bufferError .sliceLengthDoesNotMatchBufferLength)) := by
  constructor
  · intro hlen _
    unfold Py_buffer.copy_to_slice_impl
    rw [if_pos (by simp [bne_iff_ne, hlen])]
  · intro hr hlen _
    unfold Py_buffer.copy_from_slice_impl
    rw [if_neg (by simp [hr]), if_pos (by simp [bne_iff_ne, hlen])]

/-- C10 counterexample: on a descriptor whose `itemsize` is zero, for the
supported element type `u8` neither view construction nor `to_vec` reaches
the division by zero: `as_slice` returns plain `None` and `to_vec` returns
the format-incompatibility error, with no panic. -/
theorem c10_counterexample :
    zeroItemBuf.itemsize = 0
  ∧ Py_buffer.as_slice .little linux64 u8Spec zeroItemBuf okOwner = .ok none
  ∧ Py_buffer.to_vec_impl .little linux64 u8Spec zeroItemBuf okOwner 'C'
      = .ok (.err (.bufferError .sliceTypeIncompatibleWithBufferFormat)) :=
  ⟨rfl, by decide, by decide⟩

/-- C10 (amended): `item_count` is the unguarded division
`total_bytes / item_size`, equal to the floor quotient when `item_size` is
nonzero and a division-by-zero panic when it is zero, so nonzero `item_size`
is an implicit precondition of `item_count` itself; view construction and
`to_vec` check `size_of::<T>() == item_size` before calling `item_count`,
so for a supported element type (of nonzero size) a zero `item_size` makes
them return `None` respectively the format-incompatibility error instead of
reaching the division. -/
theorem c10_item_count_division (e : Endianness) (ns : NativeSizes) (t : ElementSpec)
    (b : Py_buffer) (own : Owner) (ht : 0 < t.size) :
    (b.itemsize ≠ 0 → b.item_count = .ok (b.len / b.itemsize))
  ∧ (b.itemsize = 0 → b.item_count = .panicked)
  ∧ (b.itemsize = 0 → Py_buffer.as_slice e ns t b own = .ok none)
  ∧ (b.itemsize = 0 → ∀ fort : Char, Py_buffer.to_vec_impl e ns t b own fort
      = .ok (.err (.bufferError .sliceTypeIncompatibleWithBufferFormat))) := by
  refine ⟨item_count_of_ne_zero b, ?_, ?_, ?_⟩
  · intro h0
    simp [Py_buffer.item_count, h0]
  · intro h0
    have hsz : ¬t.size = b.itemsize := by omega
    rw [as_slice_eq e ns t b own (fun h => absurd h hsz), if_neg]
    exact fun hC => hsz hC.1
  · intro h0 fort
    have hb : (t.size != b.itemsize) = true := by
      simp only [bne_iff_ne, ne_eq, h0]
      omega
    unfold Py_buffer.to_vec_impl
    rw [if_pos (by simp [hb])]

/-- Witness for C10's amended theorem at the zero-`itemsize` fixture. -/
theorem c10_item_count_division_witness :
    Py_buffer.as_slice .big linux64 u8Spec zeroItemBuf okOwner = .ok none :=
  (c10_item_count_division .big linux64 u8Spec zeroItemBuf okOwner (by decide)).2.2.1 rfl
